import Mathlib

/-!
Verification development for a blog site's listing and rendering pipeline.

The embedding models:
- the `Post` record (front-matter metadata of a blog document);
- the Home renderer (`Home`), a shallow embedding of the JSX tree it
  produces, with `MAX_DISPLAY = 5`;
- the `SearchButton` component's dispatch on the configured search provider;
- the Listing Assembler (not present among the source files; modelled from
  the specification: filter out drafts, stable sort by date descending).

Rendered output is modelled as a tree of `Node`s.  Component calls from
external libraries (`Link`, `Tag`, `time`, `NewsletterForm`) become
dedicated constructors or generically tagged elements; the external
`formatDate` function is a parameter of the renderer.  CSS class strings
are kept verbatim from the source.
-/

/-- A blog post record, as extracted from a document's front matter. -/
structure Post where
  slug : String
  date : String
  title : String
  summary : String
  tags : List String
  draft : Bool
deriving DecidableEq, Repr

/-- Search configuration from the site metadata (`siteMetadata.search`). -/
structure SearchConfig where
  provider : String
deriving DecidableEq, Repr

/-- Newsletter configuration from the site metadata (`siteMetadata.newsletter`). -/
structure NewsletterConfig where
  provider : String
deriving DecidableEq, Repr

/-- The slice of the site metadata the modelled components read. -/
structure SiteMetadata where
  description : String
  locale : String
  search : Option SearchConfig
  newsletter : Option NewsletterConfig
deriving DecidableEq, Repr

/-- A node of the rendered output tree.  `a` models the `Link` component
(an anchor with an address, class string, optional aria-label and
children); `timeEl` models the `<time>` element (dateTime attribute and
displayed content); `tagEl` models the `Tag` component; `li` and `ul` get
dedicated constructors because the claims inspect them; every other
element is `el` with its tag name. -/
inductive Node where
  | text (s : String) : Node
  | timeEl (dateTime : String) (content : String) : Node
  | tagEl (t : String) : Node
  | a (href : String) (className : String) (ariaLabel : Option String)
      (children : List Node) : Node
  | li (className : String) (children : List Node) : Node
  | ul (className : String) (children : List Node) : Node
  | el (tag : String) (className : String) (children : List Node) : Node

/-- The fixed display cap of the Home renderer (`const MAX_DISPLAY = 5`). -/
def MAX_DISPLAY : Nat := 5

/-- One summary card of the Home renderer: the body of the
`posts.slice(0, MAX_DISPLAY).map((post) => ...)` callback, which renders an
`<li>` holding the formatted date, the title link, the tag labels, the
summary text and the "Read more" link. -/
def renderCard (formatDate : String → String → String) (sm : SiteMetadata)
    (post : Post) : Node :=
  Node.li "px-8 py-8 md:px-0 md:py-12"
    [Node.el "article" ""
      [Node.el "div" "space-y-2 xl:grid xl:grid-cols-4 xl:items-baseline xl:space-y-0"
        [Node.el "dl" ""
          [Node.el "dt" "sr-only" [Node.text "Published on"],
           Node.el "dd" "text-base leading-6 font-medium text-gray-500 dark:text-gray-400"
             [Node.timeEl post.date (formatDate post.date sm.locale)]],
         Node.el "div" "space-y-5 xl:col-span-3"
          [Node.el "div" "space-y-6"
            [Node.el "div" ""
              [Node.el "h2" "text-2xl leading-8 font-bold tracking-tight"
                [Node.a ("/blog/" ++ post.slug) "text-gray-900 dark:text-gray-100" none
                  [Node.text post.title]],
               Node.el "div" "mt-2 flex flex-wrap"
                 (post.tags.map (fun tag => Node.tagEl tag))],
             Node.el "div" "prose max-w-none text-gray-500 dark:text-gray-400"
               [Node.text post.summary]],
           Node.el "div" "text-base leading-6 font-medium"
             [Node.a ("/blog/" ++ post.slug)
               "text-primary-500 hover:text-primary-600 dark:hover:text-primary-400"
               (some ("Read more: \"" ++ post.title ++ "\""))
               [Node.text "Read more →"]]]]]]

/-- Truthiness of `siteMetadata.newsletter?.provider`: the newsletter
widget is gated on the provider being present and a non-empty string. -/
def newsletterEnabled (sm : SiteMetadata) : Bool :=
  match sm.newsletter with
  | some n => n.provider != ""
  | none => false

/-- The fixed "All Posts" link rendered when the post sequence exceeds
`MAX_DISPLAY`. -/
def allPostsLink : Node :=
  Node.a "/blog" "text-primary-500 hover:text-primary-600 dark:hover:text-primary-400"
    (some "All posts") [Node.text "All Posts →"]

/-- The Home renderer.  Faithful translation of the component's JSX: the
header, the `<ul>` whose children are the "No posts found." text when
`posts` is empty, one card per entry of `posts.slice(0, MAX_DISPLAY)` and a
trailing empty `<div>`, then the conditional "All Posts" link, then the
conditional newsletter form. -/
def Home (formatDate : String → String → String) (sm : SiteMetadata)
    (posts : List Post) : List Node :=
  [Node.el "div" "divide-y divide-gray-200 dark:divide-gray-800"
    [Node.el "div" "space-y-2 pt-6 pb-8 md:space-y-5"
      [Node.el "h1" "text-center text-3xl leading-9 font-extrabold tracking-tight text-gray-900 sm:text-4xl sm:leading-10 md:text-left md:text-6xl md:leading-14 dark:text-gray-100"
        [Node.text "Lucas Bueno"],
       Node.el "p" "px-6 text-center text-lg leading-7 text-gray-500 md:px-0 md:text-left dark:text-gray-400"
        [Node.text sm.description,
         Node.el "br" "" [],
         Node.el "span" "text-sm text-gray-500 underline dark:text-gray-400"
           [Node.text "*This is my notepad 🤡*"]]],
     Node.ul "divide-y divide-gray-200 dark:divide-gray-800"
       ((if posts.length == 0 then [Node.text "No posts found."] else [])
        ++ (posts.take MAX_DISPLAY).map (renderCard formatDate sm)
        ++ [Node.el "div" "block divide-y divide-gray-200 md:hidden dark:divide-gray-800" []])]]
  ++ (if posts.length > MAX_DISPLAY then
        [Node.el "div" "flex justify-center pt-6 text-base leading-6 font-medium md:justify-end md:pt-4"
          [allPostsLink]]
      else [])
  ++ (if newsletterEnabled sm then
        [Node.el "div" "flex items-center justify-center pt-8 md:pt-4"
          [Node.el "NewsletterForm" "" []]]
      else [])

/-- The rendering a `SearchButton` call can produce: nothing, the Algolia
button, or the KBar button (each wrapping the search icon, elided). -/
inductive SearchButtonRender where
  | empty : SearchButtonRender
  | algolia (ariaLabel : String) : SearchButtonRender
  | kbar (ariaLabel : String) : SearchButtonRender
deriving DecidableEq, Repr

/-- The SearchButton component: when a search configuration is present and
its provider is `algolia` or `kbar`, render the corresponding button with
aria-label "Search"; otherwise render nothing (the component falls through
and returns undefined). -/
def SearchButton (sm : SiteMetadata) : SearchButtonRender :=
  match sm.search with
  | some s =>
    if s.provider = "algolia" ∨ s.provider = "kbar" then
      if s.provider = "algolia" then SearchButtonRender.algolia "Search"
      else SearchButtonRender.kbar "Search"
    else SearchButtonRender.empty
  | none => SearchButtonRender.empty

/-- Modelled from the spec: the Listing Assembler is not among the source
files (only its consumer, the Home renderer, is).  Per the specification it
filters out draft documents and sorts the remaining ones by publication
date descending with a stable sort. -/
def listingAssembler (posts : List Post) : List Post :=
  (posts.filter (fun p => !p.draft)).mergeSort (fun a b => b.date ≤ a.date)

mutual

/-- Collect the outermost nodes of a tree satisfying `p`. -/
def collect (p : Node → Bool) (n : Node) : List Node :=
  if p n then [n] else
    match n with
    | Node.a _ _ _ c => collectL p c
    | Node.li _ c => collectL p c
    | Node.ul _ c => collectL p c
    | Node.el _ _ c => collectL p c
    | _ => []

/-- Collect the outermost nodes satisfying `p` across a forest. -/
def collectL (p : Node → Bool) : List Node → List Node
  | [] => []
  | n :: ns => collect p n ++ collectL p ns

end

/-- Text nodes that are direct children of a forest. -/
def directTexts (c : List Node) : List String :=
  c.filterMap (fun n => match n with | Node.text s => some s | _ => none)

mutual

/-- Strings rendered as direct text children of some `<ul>` in the tree. -/
def ulDirectTexts : Node → List String
  | Node.ul _ c => directTexts c ++ ulDirectTextsL c
  | Node.a _ _ _ c => ulDirectTextsL c
  | Node.li _ c => ulDirectTextsL c
  | Node.el _ _ c => ulDirectTextsL c
  | _ => []

/-- Strings rendered as direct text children of some `<ul>` in a forest. -/
def ulDirectTextsL : List Node → List String
  | [] => []
  | n :: ns => ulDirectTexts n ++ ulDirectTextsL ns

end

/-- A summary card: an `<li>` element. -/
def isCard : Node → Bool
  | Node.li _ _ => true
  | _ => false

/-- A link whose address is `h`. -/
def isLinkTo (h : String) : Node → Bool
  | Node.a h2 _ _ _ => h2 == h
  | _ => false

/-- Any link node. -/
def isLink : Node → Bool
  | Node.a _ _ _ _ => true
  | _ => false

/-- A `<time>` element. -/
def isTime : Node → Bool
  | Node.timeEl _ _ => true
  | _ => false

/-- A tag label. -/
def isTag : Node → Bool
  | Node.tagEl _ => true
  | _ => false

/-- A text node. -/
def isText : Node → Bool
  | Node.text _ => true
  | _ => false

/-! Helper lemmas about the collectors. -/

theorem collectL_append (p : Node → Bool) (l1 l2 : List Node) :
    collectL p (l1 ++ l2) = collectL p l1 ++ collectL p l2 := by
  induction l1 with
  | nil => simp [collectL]
  | cons n ns ih => simp [collectL, ih]

theorem collectL_ite (p : Node → Bool) (c : Prop) [Decidable c] (l1 l2 : List Node) :
    collectL p (if c then l1 else l2) = if c then collectL p l1 else collectL p l2 := by
  split <;> rfl

theorem collectL_all (p : Node → Bool) (l : List Node)
    (h : ∀ n ∈ l, collect p n = [n]) : collectL p l = l := by
  induction l with
  | nil => rfl
  | cons x xs ih =>
    simp [collectL, h x (by simp)]
    exact ih (fun y hy => h y (by simp [hy]))

theorem collectL_nil (p : Node → Bool) (l : List Node)
    (h : ∀ n ∈ l, collect p n = []) : collectL p l = [] := by
  induction l with
  | nil => rfl
  | cons x xs ih =>
    simp [collectL, h x (by simp)]
    exact ih (fun y hy => h y (by simp [hy]))

theorem collectL_map_nil {α : Type} (p : Node → Bool) (f : α → Node) (l : List α)
    (h : ∀ x ∈ l, collect p (f x) = []) : collectL p (l.map f) = [] := by
  induction l with
  | nil => simp [collectL]
  | cons x xs ih =>
    simp [collectL, h x (by simp)]
    exact ih (fun y hy => h y (by simp [hy]))

theorem collectL_map_all {α : Type} (p : Node → Bool) (f : α → Node) (l : List α)
    (h : ∀ x ∈ l, collect p (f x) = [f x]) : collectL p (l.map f) = l.map f := by
  induction l with
  | nil => simp [collectL]
  | cons x xs ih =>
    simp [collectL, h x (by simp)]
    exact ih (fun y hy => h y (by simp [hy]))

theorem ulDirectTextsL_append (l1 l2 : List Node) :
    ulDirectTextsL (l1 ++ l2) = ulDirectTextsL l1 ++ ulDirectTextsL l2 := by
  induction l1 with
  | nil => simp [ulDirectTextsL]
  | cons n ns ih => simp [ulDirectTextsL, ih]

theorem ulDirectTextsL_ite (c : Prop) [Decidable c] (l1 l2 : List Node) :
    ulDirectTextsL (if c then l1 else l2) =
      if c then ulDirectTextsL l1 else ulDirectTextsL l2 := by
  split <;> rfl

theorem ulDirectTextsL_nil (l : List Node)
    (h : ∀ n ∈ l, ulDirectTexts n = []) : ulDirectTextsL l = [] := by
  induction l with
  | nil => rfl
  | cons x xs ih =>
    simp [ulDirectTextsL, h x (by simp)]
    exact ih (fun y hy => h y (by simp [hy]))

/-! Helper lemmas about a single summary card. -/

theorem blogSlug_ne (s : String) : ("/blog/" ++ s) ≠ "/blog" := by
  intro h
  have h2 : ("/blog/" ++ s).length = ("/blog" : String).length := congrArg String.length h
  rw [String.length_append] at h2
  have h3 : ("/blog/" : String).length = 6 := by decide
  have h4 : ("/blog" : String).length = 5 := by decide
  omega

theorem collect_isCard_card (f : String → String → String) (sm : SiteMetadata) (p : Post) :
    collect isCard (renderCard f sm p) = [renderCard f sm p] := by
  simp [collect, renderCard, isCard]

theorem collect_blogLink_card (f : String → String → String) (sm : SiteMetadata) (p : Post) :
    collect (isLinkTo "/blog") (renderCard f sm p) = [] := by
  simp [collect, renderCard, isLinkTo, collectL, blogSlug_ne]
  exact collectL_map_nil _ _ _ (fun x _ => by simp [collect, isLinkTo])

theorem collect_isTime_card (f : String → String → String) (sm : SiteMetadata) (p : Post) :
    collect isTime (renderCard f sm p) = [Node.timeEl p.date (f p.date sm.locale)] := by
  simp [collect, renderCard, isTime, collectL]
  exact collectL_map_nil _ _ _ (fun x _ => by simp [collect, isTime])

theorem collect_isTag_card (f : String → String → String) (sm : SiteMetadata) (p : Post) :
    collect isTag (renderCard f sm p) = p.tags.map Node.tagEl := by
  simp [collect, renderCard, isTag, collectL]
  exact collectL_map_all _ _ _ (fun x _ => by simp [collect, isTag])

theorem collect_isLink_card (f : String → String → String) (sm : SiteMetadata) (p : Post) :
    collect isLink (renderCard f sm p) =
      [Node.a ("/blog/" ++ p.slug) "text-gray-900 dark:text-gray-100" none [Node.text p.title],
       Node.a ("/blog/" ++ p.slug)
         "text-primary-500 hover:text-primary-600 dark:hover:text-primary-400"
         (some ("Read more: \"" ++ p.title ++ "\"")) [Node.text "Read more →"]] := by
  simp [collect, renderCard, isLink, collectL]
  exact collectL_map_nil _ _ _ (fun x _ => by simp [collect, isLink])

theorem collect_isText_card (f : String → String → String) (sm : SiteMetadata) (p : Post) :
    collect isText (renderCard f sm p) =
      [Node.text "Published on", Node.text p.title, Node.text p.summary,
       Node.text "Read more →"] := by
  simp [collect, renderCard, isText, collectL]
  exact collectL_map_nil _ _ _ (fun x _ => by simp [collect, isText])

theorem ulTexts_card (f : String → String → String) (sm : SiteMetadata) (p : Post) :
    ulDirectTexts (renderCard f sm p) = [] := by
  simp [ulDirectTexts, renderCard, ulDirectTextsL]
  induction p.tags with
  | nil => simp [ulDirectTextsL]
  | cons x xs ih => simp [ulDirectTextsL, ulDirectTexts, ih]

/-! Helper lemmas computing the collectors over the whole Home tree. -/

theorem cards_home (f : String → String → String) (sm : SiteMetadata) (posts : List Post) :
    collectL isCard (Home f sm posts) = (posts.take MAX_DISPLAY).map (renderCard f sm) := by
  simp [Home, collect, collectL, collectL_append, collectL_ite, isCard, allPostsLink]
  exact collectL_all _ _ (fun n hn => by
    obtain ⟨x, _, rfl⟩ := List.mem_map.mp (List.mem_of_mem_take hn)
    exact collect_isCard_card f sm x)

theorem blogLinks_home (f : String → String → String) (sm : SiteMetadata) (posts : List Post) :
    collectL (isLinkTo "/blog") (Home f sm posts) =
      if posts.length > MAX_DISPLAY then [allPostsLink] else [] := by
  simp [Home, collect, collectL, collectL_append, collectL_ite, isLinkTo, allPostsLink]
  exact collectL_nil _ _ (fun n hn => by
    obtain ⟨x, _, rfl⟩ := List.mem_map.mp (List.mem_of_mem_take hn)
    exact collect_blogLink_card f sm x)

theorem ulTexts_home (f : String → String → String) (sm : SiteMetadata) (posts : List Post) :
    ulDirectTextsL (Home f sm posts) =
      if posts = [] then ["No posts found."] else [] := by
  have hc : ulDirectTextsL (List.take MAX_DISPLAY (List.map (renderCard f sm) posts)) = [] :=
    ulDirectTextsL_nil _ (fun n hn => by
      obtain ⟨x, _, rfl⟩ := List.mem_map.mp (List.mem_of_mem_take hn)
      exact ulTexts_card f sm x)
  have hd : ∀ (c : Prop) (inst : Decidable c) (l1 l2 : List Node),
      directTexts (if c then l1 else l2) = if c then directTexts l1 else directTexts l2 := by
    intro c inst l1 l2; split <;> rfl
  simp [Home, ulDirectTexts, ulDirectTextsL, ulDirectTextsL_append, ulDirectTextsL_ite,
    hd, directTexts, allPostsLink, hc, List.length_eq_zero]
  have he : List.filterMap (fun n => match n with | Node.text s => some s | _ => none)
      (List.take MAX_DISPLAY (List.map (renderCard f sm) posts)) = ([] : List String) := by
    rw [List.filterMap_eq_nil_iff]
    intro n hn
    obtain ⟨x, _, rfl⟩ := List.mem_map.mp (List.mem_of_mem_take hn)
    rfl
  rw [he]
  split <;> simp

/-! Concrete inputs used by the witness theorems. -/

/-- A trivial date formatter used to instantiate the renderer's external
`formatDate` parameter in witnesses. -/
def fmtId : String → String → String := fun d _ => d

/-- A concrete site metadata value with no search and no newsletter. -/
def smNone : SiteMetadata :=
  { description := "my notes", locale := "en-US", search := none, newsletter := none }

/-- A concrete non-draft post. -/
def postA : Post :=
  { slug := "hello-world", date := "2024-01-01", title := "Hello",
    summary := "A greeting", tags := ["intro", "misc"], draft := false }

/-- A concrete draft post. -/
def postDraft : Post :=
  { slug := "wip", date := "2024-02-01", title := "WIP",
    summary := "Unfinished", tags := [], draft := true }

/-- Seven concrete non-draft posts with pairwise-distinct dates, listed in
descending date order. -/
def sevenPosts : List Post :=
  [{ slug := "p7", date := "2024-01-07", title := "T7", summary := "S7", tags := [], draft := false },
   { slug := "p6", date := "2024-01-06", title := "T6", summary := "S6", tags := [], draft := false },
   { slug := "p5", date := "2024-01-05", title := "T5", summary := "S5", tags := [], draft := false },
   { slug := "p4", date := "2024-01-04", title := "T4", summary := "S4", tags := [], draft := false },
   { slug := "p3", date := "2024-01-03", title := "T3", summary := "S3", tags := [], draft := false },
   { slug := "p2", date := "2024-01-02", title := "T2", summary := "S2", tags := [], draft := false },
   { slug := "p1", date := "2024-01-01", title := "T1", summary := "S1", tags := [], draft := false }]

/-! The claims. -/

/-- C1: for every input sequence `posts`, the Home renderer renders exactly
the first `min (length posts) MAX_DISPLAY` entries as summary cards, where
`MAX_DISPLAY = 5`, and the cards appear in the same relative order as the
incoming sequence: the cards collected from the rendered tree are exactly
the image of `posts.take MAX_DISPLAY` under `renderCard`, in that order. -/
theorem home_renders_first_max_display (f : String → String → String)
    (sm : SiteMetadata) (posts : List Post) :
    MAX_DISPLAY = 5 ∧
    collectL isCard (Home f sm posts) = (posts.take MAX_DISPLAY).map (renderCard f sm) ∧
    (collectL isCard (Home f sm posts)).length = min posts.length MAX_DISPLAY := by
  refine ⟨rfl, cards_home f sm posts, ?_⟩
  rw [cards_home, List.length_map, List.length_take, Nat.min_comm]

/-- C2: the Home renderer's output contains a single link with address
`/blog` (the "All Posts" link) precisely when `posts.length > MAX_DISPLAY`;
otherwise no node of the output tree is a link to `/blog` at all. -/
theorem home_view_all_link_iff (f : String → String → String)
    (sm : SiteMetadata) (posts : List Post) :
    collectL (isLinkTo "/blog") (Home f sm posts) =
      if posts.length > MAX_DISPLAY then [allPostsLink] else [] :=
  blogLinks_home f sm posts

/-- C3: the Home renderer shows the literal text "No posts found." as a
direct child of the post list exactly when `posts` is empty, and renders
zero summary cards in that case. -/
theorem home_empty_message (f : String → String → String)
    (sm : SiteMetadata) (posts : List Post) :
    ("No posts found." ∈ ulDirectTextsL (Home f sm posts) ↔ posts = []) ∧
    (posts = [] → collectL isCard (Home f sm posts) = []) := by
  constructor
  · rw [ulTexts_home]
    split <;> simp_all
  · intro h
    rw [cards_home, h]
    rfl

/-- Witness for C3 at the empty input. -/
theorem home_empty_message_witness :
    "No posts found." ∈ ulDirectTextsL (Home fmtId smNone []) ∧
    collectL isCard (Home fmtId smNone []) = [] :=
  ⟨(home_empty_message fmtId smNone []).1.mpr rfl,
   (home_empty_message fmtId smNone []).2 rfl⟩

/-- C6: the Home renderer is deterministic: runs on equal input sequences
(with the same formatter and site configuration) produce identical rendered
trees.  Side-effect freedom holds by construction: `Home` is a pure
function of its arguments. -/
theorem home_deterministic (f : String → String → String) (sm : SiteMetadata)
    (posts1 posts2 : List Post) (h : posts1 = posts2) :
    Home f sm posts1 = Home f sm posts2 := by
  rw [h]

/-- Witness for C6 at a concrete input. -/
theorem home_deterministic_witness :
    Home fmtId smNone [postA] = Home fmtId smNone [postA] :=
  home_deterministic fmtId smNone [postA] [postA] rfl

/-- C7: the Home renderer is total over all well-formed inputs, including
the empty sequence: it always evaluates to a rendered fragment, whose
top-level length is determined by the two conditional branches. -/
theorem home_total (f : String → String → String) (sm : SiteMetadata)
    (posts : List Post) :
    ∃ r : List Node, Home f sm posts = r ∧
      r.length = 1 + (if posts.length > MAX_DISPLAY then 1 else 0)
        + (if newsletterEnabled sm then 1 else 0) := by
  refine ⟨Home f sm posts, rfl, ?_⟩
  simp only [Home]
  split_ifs <;> simp

/-- C8: the Listing Assembler's output contains no draft post, so the
sequence handed to the Home renderer has zero drafts. -/
theorem listingAssembler_no_drafts (posts : List Post) (p : Post)
    (hp : p ∈ listingAssembler posts) : p.draft = false := by
  have h1 : p ∈ posts.filter (fun q => !q.draft) :=
    (List.mergeSort_perm (posts.filter (fun q => !q.draft)) _).mem_iff.mp hp
  have h2 := List.of_mem_filter h1
  simpa using h2

/-- Witness for C8: the non-draft post survives a mixed input. -/
theorem listingAssembler_no_drafts_witness : postA.draft = false :=
  listingAssembler_no_drafts [postDraft, postA] postA
    (by simp [listingAssembler, postDraft, postA])

/-- C9: the SearchButton dispatches on the configured provider: `algolia`
yields the Algolia button, `kbar` yields the KBar button, and any other
configuration (another provider string, or no search configuration)
renders nothing. -/
theorem searchButton_dispatch (sm : SiteMetadata) :
    SearchButton sm =
      match sm.search with
      | some s =>
        if s.provider = "algolia" then SearchButtonRender.algolia "Search"
        else if s.provider = "kbar" then SearchButtonRender.kbar "Search"
        else SearchButtonRender.empty
      | none => SearchButtonRender.empty := by
  rcases sm with ⟨d, l, s, n⟩
  rcases s with _ | ⟨p⟩
  · rfl
  · by_cases h1 : p.provider = "algolia" <;> by_cases h2 : p.provider = "kbar" <;>
      simp [SearchButton, h1, h2]

/-- C4: for any sequence of exactly 7 posts with pairwise-distinct dates
sorted descending (strict descending pairwise order), the Home renderer
renders exactly 5 cards: those of the first five posts, whose dates are
pairwise descending and all later than every undisplayed post's date, and
the output includes the "All Posts" link to `/blog`. -/
theorem home_seven_posts (f : String → String → String) (sm : SiteMetadata)
    (posts : List Post) (h7 : posts.length = 7)
    (hsort : posts.Pairwise (fun a b => b.date < a.date)) :
    collectL isCard (Home f sm posts) = (posts.take MAX_DISPLAY).map (renderCard f sm) ∧
    (collectL isCard (Home f sm posts)).length = 5 ∧
    (posts.take MAX_DISPLAY).Pairwise (fun a b => b.date < a.date) ∧
    (∀ p ∈ posts.take MAX_DISPLAY, ∀ q ∈ posts.drop MAX_DISPLAY, q.date < p.date) ∧
    collectL (isLinkTo "/blog") (Home f sm posts) = [allPostsLink] := by
  have hsort2 : (posts.take MAX_DISPLAY ++ posts.drop MAX_DISPLAY).Pairwise
      (fun a b => b.date < a.date) := by
    rw [List.take_append_drop]; exact hsort
  have hcross := List.pairwise_append.mp hsort2
  refine ⟨cards_home f sm posts, ?_, hcross.1, hcross.2.2, ?_⟩
  · rw [cards_home, List.length_map, List.length_take, h7]
    decide
  · rw [blogLinks_home]
    simp [h7, MAX_DISPLAY]

/-- Witness for C4 on seven concrete posts in descending date order. -/
theorem home_seven_posts_witness :
    sevenPosts.length = 7 ∧
    collectL isCard (Home fmtId smNone sevenPosts) =
      (sevenPosts.take MAX_DISPLAY).map (renderCard fmtId smNone) ∧
    collectL (isLinkTo "/blog") (Home fmtId smNone sevenPosts) = [allPostsLink] :=
  have h := home_seven_posts fmtId smNone sevenPosts rfl
    (by simp [sevenPosts, List.Pairwise]; decide)
  ⟨rfl, h.1, h.2.2.2.2⟩

/-- C5: every rendered card is the card of one of the first `MAX_DISPLAY`
posts and shows that post's formatted date (in a `<time>` element), its
title as a link to `/blog/{slug}`, one tag label per entry of its tag list,
and its summary text. -/
theorem home_card_contents (f : String → String → String) (sm : SiteMetadata)
    (posts : List Post) (c : Node)
    (hc : c ∈ collectL isCard (Home f sm posts)) :
    ∃ p ∈ posts.take MAX_DISPLAY, c = renderCard f sm p ∧
      collect isTime c = [Node.timeEl p.date (f p.date sm.locale)] ∧
      (∃ ch, Node.a ("/blog/" ++ p.slug) "text-gray-900 dark:text-gray-100" none ch
          ∈ collect isLink c ∧ Node.text p.title ∈ ch) ∧
      collect isTag c = p.tags.map Node.tagEl ∧
      Node.text p.summary ∈ collect isText c := by
  rw [cards_home] at hc
  obtain ⟨p, hp, rfl⟩ := List.mem_map.mp hc
  refine ⟨p, hp, rfl, collect_isTime_card f sm p, ?_, collect_isTag_card f sm p, ?_⟩
  · exact ⟨[Node.text p.title], by rw [collect_isLink_card]; simp, by simp⟩
  · rw [collect_isText_card]; simp

/-- Witness for C5 on a concrete card of a concrete rendering. -/
theorem home_card_contents_witness :
    ∃ p ∈ ([postA].take MAX_DISPLAY),
      renderCard fmtId smNone postA = renderCard fmtId smNone p ∧
      collect isTime (renderCard fmtId smNone postA) =
        [Node.timeEl p.date (fmtId p.date smNone.locale)] ∧
      (∃ ch, Node.a ("/blog/" ++ p.slug) "text-gray-900 dark:text-gray-100" none ch
          ∈ collect isLink (renderCard fmtId smNone postA) ∧ Node.text p.title ∈ ch) ∧
      collect isTag (renderCard fmtId smNone postA) = p.tags.map Node.tagEl ∧
      Node.text p.summary ∈ collect isText (renderCard fmtId smNone postA) :=
  home_card_contents fmtId smNone [postA] (renderCard fmtId smNone postA)
    (List.mem_singleton.mpr rfl)

/-- C10: every rendered card contains exactly two links, the title link and
the "Read more" link, and both carry the identical address `/blog/{slug}`
built from that card's post slug. -/
theorem home_card_two_links (f : String → String → String) (sm : SiteMetadata)
    (posts : List Post) (c : Node)
    (hc : c ∈ collectL isCard (Home f sm posts)) :
    ∃ p ∈ posts.take MAX_DISPLAY,
      collect isLink c =
        [Node.a ("/blog/" ++ p.slug) "text-gray-900 dark:text-gray-100" none
           [Node.text p.title],
         Node.a ("/blog/" ++ p.slug)
           "text-primary-500 hover:text-primary-600 dark:hover:text-primary-400"
           (some ("Read more: \"" ++ p.title ++ "\"")) [Node.text "Read more →"]] := by
  rw [cards_home] at hc
  obtain ⟨p, hp, rfl⟩ := List.mem_map.mp hc
  exact ⟨p, hp, collect_isLink_card f sm p⟩

/-- Witness for C10 on a concrete card of a concrete rendering. -/
theorem home_card_two_links_witness :
    ∃ p ∈ ([postA].take MAX_DISPLAY),
      collect isLink (renderCard fmtId smNone postA) =
        [Node.a ("/blog/" ++ p.slug) "text-gray-900 dark:text-gray-100" none
           [Node.text p.title],
         Node.a ("/blog/" ++ p.slug)
           "text-primary-500 hover:text-primary-600 dark:hover:text-primary-400"
           (some ("Read more: \"" ++ p.title ++ "\"")) [Node.text "Read more →"]] :=
  home_card_two_links fmtId smNone [postA] (renderCard fmtId smNone postA)
    (List.mem_singleton.mpr rfl)
